import Mathlib

/-!
Verification of the task-supervisor subsystem of `happy_core`
(`src/true/asyn.py`): the task state machine, resource-limit checks,
dependency graph, cleanup protocol and monitor loop, shallowly embedded
as executable Lean definitions.  Clock readings (`loop.time()`,
`time.time()`) and the process memory reading (`psutil ... rss`) are
modelled as `Nat` parameters supplied by the environment; awaiting a
cancelled runtime task is modelled by the task becoming done and
cancelled.
-/

/-- `TaskState` enum (asyn.py lines 50-57). -/
inductive TaskState where
  | PENDING
  | RUNNING
  | COMPLETED
  | CANCELLED
  | FAILED
  | BLOCKED
deriving DecidableEq, Repr

/-- The terminal states, as used by `_check_children` (line 362) and
`__del__` (line 533): COMPLETED, CANCELLED, FAILED. -/
def TaskState.isTerminal : TaskState → Bool
  | .COMPLETED => true
  | .CANCELLED => true
  | .FAILED => true
  | _ => false

/-- `ResourceStats` (lines 66-73): resource usage counters. -/
structure ResourceStats where
  peak_memory : Nat
  total_runtime : Nat
  io_operations : Nat
  network_calls : Nat
  child_tasks : Nat
deriving DecidableEq, Repr

/-- Fresh `ResourceStats()` (all counters zero). -/
def ResourceStats.init : ResourceStats :=
  { peak_memory := 0, total_runtime := 0, io_operations := 0,
    network_calls := 0, child_tasks := 0 }

/-- `ResourceLimits` (lines 75-82): each ceiling is `Optional[int]`,
`None` by default. -/
structure ResourceLimits where
  max_memory : Option Nat
  max_runtime : Option Nat
  max_io_ops : Option Nat
  max_network_calls : Option Nat
  max_children : Option Nat
deriving DecidableEq, Repr

/-- Fresh `ResourceLimits()` (all `None`). -/
def ResourceLimits.init : ResourceLimits :=
  { max_memory := none, max_runtime := none, max_io_ops := none,
    max_network_calls := none, max_children := none }

/-- Python truthiness of an `Optional[int]` value: `None` and `0` are
falsy, every other number is truthy.  Used by the bare `if x and ...`
guards in `check_resource_limits` and `update_stats`. -/
def pyTruthy : Option Nat → Bool
  | none => false
  | some n => n ≠ 0

/-- Python `str(x)` for an `Optional[str]`: `None` renders as the string
`"None"` inside an f-string. -/
def pyStrOpt : Option String → String
  | none => "None"
  | some s => s

/-- `TaskInfo.check_resource_limits` (lines 159-170).  Takes the stats
and the current number of children (`len(self.children)`); returns the
violation message, or `none`.  Each guard first tests the limit for
truthiness (`if self.limits.max_memory and ...`).  Only memory, runtime
and children are checked; `max_io_ops` and `max_network_calls` are never
read. -/
def check_resource_limits (limits : ResourceLimits) (stats : ResourceStats)
    (nchildren : Nat) : Option String :=
  if pyTruthy limits.max_memory && limits.max_memory.getD 0 < stats.peak_memory then
    let a := stats.peak_memory
    let b := limits.max_memory.getD 0
    some s!"Memory limit exceeded: {a} > {b}"
  else if pyTruthy limits.max_runtime && limits.max_runtime.getD 0 < stats.total_runtime then
    let a := stats.total_runtime
    let b := limits.max_runtime.getD 0
    some s!"Runtime limit exceeded: {a} > {b}"
  else if pyTruthy limits.max_children && limits.max_children.getD 0 < nchildren then
    let b := limits.max_children.getD 0
    some s!"Child task limit exceeded: {nchildren} > {b}"
  else
    none

/-- An `asyncio.Task` as far as the supervisor observes it: whether it is
done and whether it ended cancelled. -/
structure RTask where
  done : Bool
  cancelled : Bool
deriving DecidableEq, Repr

/-- `TaskInfo` (lines 84-107), restricted to the fields the supervisor
operations read or write.  `debug_info` is modelled by its two keys used
in the code: `cancel_reason` (outer `none` = key absent; the stored value
is itself `Optional[str]`) and `blocked_reason`. -/
structure TaskInfo where
  name : String
  state : TaskState
  start_time : Option Nat
  end_time : Option Nat
  exception : Option String
  task : Option RTask
  cancel_reason : Option (Option String)
  blocked_reason : Option String
  stats : ResourceStats
  limits : ResourceLimits
  last_active : Nat
deriving DecidableEq, Repr

/-- A fresh `TaskInfo(name)` (constructor, lines 86-107). -/
def TaskInfo.init (name : String) : TaskInfo :=
  { name := name, state := .PENDING, start_time := none, end_time := none,
    exception := none, task := none, cancel_reason := none,
    blocked_reason := none, stats := ResourceStats.init,
    limits := ResourceLimits.init, last_active := 0 }

/-- How a cleanup callback is dispatched by `_run_cleanup_callbacks`
(lines 258-267): synchronous callables are invoked directly, coroutine
functions are awaited. -/
inductive CallMode where
  | sync
  | awaited
deriving DecidableEq, Repr

/-- One event of the observable callback trace: which callback ran and
how it was dispatched. -/
structure CallEvent where
  id : Nat
  mode : CallMode
deriving DecidableEq, Repr

/-- A registered cleanup callback: its identity, whether
`asyncio.iscoroutinefunction` holds of it, and the message of the
exception it raises when invoked (`none` = it returns normally). -/
structure Callback where
  id : Nat
  isAsync : Bool
  raises : Option String
deriving DecidableEq, Repr

/-- Invoking one callback: it either returns or raises. -/
def Callback.invoke (c : Callback) : Except String Unit :=
  match c.raises with
  | none => .ok ()
  | some m => .error m

/-- `AsynCleanup._run_cleanup_callbacks` (lines 258-267): iterate the
registered callbacks in order; dispatch each by
`asyncio.iscoroutinefunction`; an exception from a callback is caught and
logged (`"Error in cleanup callback: ..."`) and the loop continues.
Returns the invocation trace and the log of callback errors. -/
def run_cleanup_callbacks : List Callback → List CallEvent × List String
  | [] => ([], [])
  | c :: rest =>
    let mode := if c.isAsync then CallMode.awaited else CallMode.sync
    let logged : List String :=
      match c.invoke with
      | .ok _ => []
      | .error e => [s!"Error in cleanup callback: {e}"]
    let (evs, logs) := run_cleanup_callbacks rest
    (⟨c.id, mode⟩ :: evs, logged ++ logs)

/-- An `Asyn` handle (lines 292-318), restricted to the state the
lifecycle operations touch: its `TaskInfo`, the registered cleanup
callbacks, the background monitor task, the children (each child
represented by its own `TaskInfo`), the dependents (likewise), whether
the handle has a parent and whether it is still in that parent's
`children` registry. -/
structure Asyn where
  name : String
  info : TaskInfo
  cleanup_callbacks : List Callback
  monitor_task : Option RTask
  children : List TaskInfo
  dependents : List TaskInfo
  has_parent : Bool
  in_parent_children : Bool
deriving DecidableEq, Repr

/-- The body shared by `Asyn._cancel_self` (lines 453-462) and
`AsynCleanup._cancel_self` (lines 247-256): if the underlying runtime
task exists and is not done, set state = CANCELLED, store
`debug_info['cancel_reason'] = reason`, cancel the runtime task and await
it (swallowing the `CancelledError`), after which the task is done and
cancelled.  Otherwise do nothing. -/
def TaskInfo.cancel_self (i : TaskInfo) (reason : Option String) : TaskInfo :=
  match i.task with
  | some t =>
    if !t.done then
      { i with state := .CANCELLED, cancel_reason := some reason,
               task := some { done := true, cancelled := true } }
    else i
  | none => i

/-- `TaskInfo.update_stats` (lines 145-157): if a runtime task exists,
raise `peak_memory` to the current process RSS; if `start_time` is truthy,
set `total_runtime = now - start_time`; set `child_tasks` to the current
number of children. -/
def TaskInfo.update_stats (i : TaskInfo) (nchildren rss now : Nat) : TaskInfo :=
  let s := i.stats
  let s := if i.task.isSome then { s with peak_memory := max s.peak_memory rss } else s
  let s := if pyTruthy i.start_time then
      { s with total_runtime := now - i.start_time.getD 0 }
    else s
  { i with stats := { s with child_tasks := nchildren } }

/-- The exception with which a scope exits, as classified by
`AsynCleanup._update_final_state`: none, `asyncio.CancelledError`, or any
other exception (carrying its message). -/
inductive ExitExc where
  | cancelled
  | failure (msg : String)
deriving DecidableEq, Repr

/-- `AsynCleanup._update_final_state` (lines 282-290): no exception →
COMPLETED; `CancelledError` → CANCELLED; otherwise FAILED and the
exception is stored. -/
def update_final_state (exc : Option ExitExc) (i : TaskInfo) : TaskInfo :=
  match exc with
  | none => { i with state := .COMPLETED }
  | some .cancelled => { i with state := .CANCELLED }
  | some (.failure m) => { i with state := .FAILED, exception := some m }

/-- `Asyn._notify_dependents` (lines 497-504): every dependent is set to
state BLOCKED with `debug_info['blocked_reason'] =
f"Dependency cancelled: {self.name} ({reason})"`. -/
def Asyn.notify_dependents (h : Asyn) (reason : Option String) : Asyn :=
  let n := h.name
  let r := pyStrOpt reason
  let msg := s!"Dependency cancelled: {n} ({r})"
  { h with dependents :=
      h.dependents.map (fun d => { d with state := .BLOCKED, blocked_reason := some msg }) }

/-- `AsynCleanup.__aexit__` (lines 190-222) on an instance whose
`_cleaned` flag is `cleaned`, with the scope's exception `exc`, at clock
reading `now` and process RSS `rss`.  Returns the instance's new
`_cleaned` flag, the updated handle, and the callback trace produced by
step 4.  Steps, in source order: return immediately if already cleaned;
cancel the monitor task; cancel all children (each child's
`_cancel_self` with reason `"Parent <name> cleanup"`); cancel self if the
runtime task is still active (`_cancel_self` with its default reason
`"Cleanup"`); run the cleanup callbacks; `_cleanup_resources` (set
`end_time`, `update_stats`, discard self from the parent's children);
`_update_final_state`; mark the instance cleaned. -/
def AsynCleanup.aexit (cleaned : Bool) (h : Asyn) (exc : Option ExitExc)
    (now rss : Nat) : Bool × Asyn × List CallEvent :=
  if cleaned then (cleaned, h, [])
  else
    let monitor := match h.monitor_task with
      | some t => if !t.done then some ({ done := true, cancelled := true } : RTask) else some t
      | none => none
    let pname := h.name
    let children := h.children.map (fun c => c.cancel_self (some s!"Parent {pname} cleanup"))
    let info := h.info.cancel_self (some "Cleanup")
    let (evs, _) := run_cleanup_callbacks h.cleanup_callbacks
    let info := { info with end_time := some now }
    let info := info.update_stats children.length rss now
    let inParent := if h.has_parent then false else h.in_parent_children
    let info := update_final_state exc info
    (true,
     { h with info := info, monitor_task := monitor, children := children,
              in_parent_children := inParent },
     evs)

/-- The behaviour of the awaited coroutine passed to `run`: it returns a
value, raises an exception with a message, or is cancelled
(`asyncio.CancelledError`). -/
inductive CoroOutcome where
  | ret (v : Nat)
  | raised (msg : String)
  | cancelled
deriving DecidableEq, Repr

/-- What `run` propagates to its caller: the coroutine's value, or the
re-raised exception / cancellation. -/
inductive RunResult where
  | value (v : Nat)
  | raised (msg : String)
  | cancelled
deriving DecidableEq, Repr

/-- `Asyn.run` (lines 415-432).  Sets state = RUNNING and
`start_time = t0`; awaits the coroutine.  `except CancelledError`: state
= CANCELLED, re-raise; `except Exception`: state = FAILED, exception
stored, re-raise.  The `finally` block then runs unconditionally: state =
COMPLETED, `end_time = t1`, and `cleanup().__aexit__(None, None, None)`
on a fresh `AsynCleanup` instance (which in turn runs
`_update_final_state(None, None)`).  Returns the updated handle, the
cleanup-callback trace of the `finally` cleanup, and what propagates to
the caller. -/
def Asyn.run (h : Asyn) (outcome : CoroOutcome) (t0 t1 now rss : Nat) :
    Asyn × List CallEvent × RunResult :=
  let h := { h with info := { h.info with state := .RUNNING, start_time := some t0 } }
  let afterTry : Asyn × RunResult :=
    match outcome with
    | .ret v => (h, .value v)
    | .raised m =>
      ({ h with info := { h.info with state := .FAILED, exception := some m } }, .raised m)
    | .cancelled =>
      ({ h with info := { h.info with state := .CANCELLED } }, .cancelled)
  let h := afterTry.1
  let h := { h with info := { h.info with state := .COMPLETED, end_time := some t1 } }
  let (_, h, evs) := AsynCleanup.aexit false h none now rss
  (h, evs, afterTry.2)

/-- `Asyn._cancel_children` (lines 465-487): each child's `_cancel_self`
with reason `f"Parent cancelled: {reason}"`; errors of individual child
cancellations are swallowed by `gather(..., return_exceptions=True)`. -/
def Asyn.cancel_children (h : Asyn) (reason : Option String) : Asyn :=
  let r := pyStrOpt reason
  { h with children := h.children.map (fun c => c.cancel_self (some s!"Parent cancelled: {r}")) }

/-- `Asyn.cancel` (lines 506-513), in source order: `_cancel_self(reason)`;
if `include_children`, `_cancel_children(timeout, reason)`;
`_cancel_with_timeout(timeout)` (which only awaits the runtime task and
changes no supervisor state); `_notify_dependents(reason)`; and finally
`cleanup().__aexit__(None, None, None)` on a fresh `AsynCleanup`
instance.  Returns the updated handle and the callback trace of that
cleanup. -/
def Asyn.cancel (h : Asyn) (include_children : Bool) (reason : Option String)
    (now rss : Nat) : Asyn × List CallEvent :=
  let h := { h with info := h.info.cancel_self reason }
  let h := if include_children then h.cancel_children reason else h
  let h := h.notify_dependents reason
  let (_, h, evs) := AsynCleanup.aexit false h none now rss
  (h, evs)

/-- `Asyn.__aexit__` (lines 526-529): `async with self.cleanup(): pass`,
i.e. `AsynCleanup.__aexit__` on a fresh instance with the scope's
exception.  (The inner `with` body is `pass`, so the exception forwarded
to the cleanup instance is the scope's own.) -/
def Asyn.scope_aexit (h : Asyn) (exc : Option ExitExc) (now rss : Nat) :
    Asyn × List CallEvent :=
  let (_, h, evs) := AsynCleanup.aexit false h exc now rss
  (h, evs)

/-- `Asyn.MAX_ZOMBIE_AGE` (line 299). -/
def MAX_ZOMBIE_AGE : Nat := 300

/-- The projection of `AsynCleanup.__aexit__(None, None, None)` onto a
child's own `TaskInfo`, as performed by `Asyn._cleanup_child` (lines
367-373) on a child handle: cancel the child's runtime task if still
active (default reason `"Cleanup"`), set `end_time`, `update_stats`
(the child's own children are not tracked here, so `child_tasks` keeps
its value), and `_update_final_state(None, None)`. -/
def TaskInfo.cleanup_aexit (c : TaskInfo) (now rss : Nat) : TaskInfo :=
  let c := c.cancel_self (some "Cleanup")
  let c := { c with end_time := some now }
  let c := c.update_stats c.stats.child_tasks rss now
  update_final_state none c

/-- `Asyn._monitor` (lines 342-351) — one sweep of the monitor body:
`_check_task_state` (line 353-356: refresh `last_active` while RUNNING),
`_check_children` (lines 358-365: clean up and discard terminal
children), `_cleanup_zombies` (lines 375-390: for a child that is not
RUNNING whose runtime task is done and not cancelled, stamp `end_time` if
it is not truthy, and force-cleanup and discard the child once
`now - end_time > MAX_ZOMBIE_AGE`).  A child discarded by
`_cleanup_child` first undergoes `TaskInfo.cleanup_aexit`; since the
parent then drops its reference, only the removal is observable here,
and the sweep uses no memory reading (`_rss` unused).  The monitor body
reads neither `limits` nor `stats` of the handle and never cancels it. -/
def Asyn.monitor_sweep (h : Asyn) (now _rss : Nat) : Asyn :=
  let info := if h.info.state = .RUNNING then { h.info with last_active := now } else h.info
  let children := h.children.filterMap (fun c =>
    if c.state.isTerminal then none else some c)
  let children := children.filterMap (fun c =>
    match c.task with
    | some t =>
      if c.state ≠ .RUNNING && t.done && !t.cancelled then
        if !(pyTruthy c.end_time) then some { c with end_time := some now }
        else if MAX_ZOMBIE_AGE < now - c.end_time.getD 0 then none
        else some c
      else some c
    | none => some c)
  { h with info := info, children := children }

/-- The dependency graph over task handles (handles named by `Nat` ids):
the `dependencies` and `dependents` weak-set fields of every `TaskInfo`
(lines 101-102), read as two set-valued maps.  A Python `set` is modelled
as a duplicate-free list: `set.add` is `List.insert` (a no-op when the
element is present) and `set.discard` is `List.erase`. -/
structure DepGraph where
  dependencies : Nat → List Nat
  dependents : Nat → List Nat

/-- The graph of freshly created tasks: all sets empty. -/
def DepGraph.empty : DepGraph :=
  { dependencies := fun _ => [], dependents := fun _ => [] }

/-- The sets of a graph are duplicate-free, as Python sets are. -/
def DepGraph.Sets (g : DepGraph) : Prop :=
  (∀ t, (g.dependencies t).Nodup) ∧ (∀ t, (g.dependents t).Nodup)

/-- `TaskInfo.add_dependency` (lines 110-113), which is all that
`Asyn.add_dependency` (lines 396-398) does:
`self.dependencies.add(task); task.info.dependents.add(self)`.  There is
no guard of any kind. -/
def DepGraph.add_dependency (g : DepGraph) (self task : Nat) : DepGraph :=
  { dependencies := Function.update g.dependencies self ((g.dependencies self).insert task),
    dependents := Function.update g.dependents task ((g.dependents task).insert self) }

/-- `TaskInfo.remove_dependency` (lines 115-118):
`self.dependencies.discard(task); task.info.dependents.discard(self)`. -/
def DepGraph.remove_dependency (g : DepGraph) (self task : Nat) : DepGraph :=
  { dependencies := Function.update g.dependencies self ((g.dependencies self).erase task),
    dependents := Function.update g.dependents task ((g.dependents task).erase self) }

/-- The dependencies of `t` in the order the embedding iterates them.
Python iterates the `WeakSet` in an unspecified order; the embedding uses
the list order. -/
def DepGraph.depList (g : DepGraph) (t : Nat) : List Nat :=
  g.dependencies t

/-- The loop body of `check_deadlock.visit` over the dependency list:
visit each dependency in turn, threading the `visited` set, and return
the first cycle found. -/
def dlVisitList (visitF : Nat → List Nat → List Nat → Option (List Nat) × List Nat) :
    List Nat → List Nat → List Nat → Option (List Nat) × List Nat
  | [], visited, _ => (none, visited)
  | d :: ds, visited, path =>
    match visitF d visited path with
    | (some c, v) => (some c, v)
    | (none, v) => dlVisitList visitF ds v path

/-- `TaskInfo.check_deadlock.visit` (lines 127-141): if the task is on
the current path, return the slice of the path from its first occurrence
(the cycle); if already visited, return nothing; otherwise mark visited,
push onto the path, recurse into the dependencies, and pop.  `path` is
restored on return, so only `visited` is threaded back.  `fuel` bounds
the recursion depth; any `fuel` larger than the number of reachable
tasks is enough, since each recursive call visits an unvisited task. -/
def dlVisit (g : DepGraph) : Nat → Nat → List Nat → List Nat → Option (List Nat) × List Nat
  | 0, _, visited, _ => (none, visited)
  | fuel + 1, t, visited, path =>
    if t ∈ path then (some (path.drop (path.indexOf t)), visited)
    else if t ∈ visited then (none, visited)
    else dlVisitList (dlVisit g fuel) (g.depList t) (t :: visited) (path ++ [t])

/-- `TaskInfo.check_deadlock` (lines 121-143): run `visit` from `self`
with empty `visited` and `path`; the returned cycle is the detected path
slice (the code wraps it in a `set`).  `check_deadlock` only reads the
graph; it mutates nothing. -/
def DepGraph.check_deadlock (g : DepGraph) (self fuel : Nat) : Option (List Nat) :=
  (dlVisit g fuel self [] []).1

/-- A freshly constructed root handle named `"A"`: PENDING, no runtime
task, no callbacks, no children or dependents, with the background
monitor started by `__init__` (line 318). -/
def baseAsyn : Asyn :=
  { name := "A", info := TaskInfo.init "A", cleanup_callbacks := [],
    monitor_task := some { done := false, cancelled := false },
    children := [], dependents := [], has_parent := false, in_parent_children := true }

/-- A synchronous cleanup callback (id 7) that returns normally. -/
def cb7 : Callback := { id := 7, isAsync := false, raises := none }

/-- The handle `"A"` with the single cleanup callback `cb7` registered. -/
def asynWithCb : Asyn := { baseAsyn with cleanup_callbacks := [cb7] }

/-- A dependent task `"D"` already in the terminal state CANCELLED. -/
def depCancelled : TaskInfo := { TaskInfo.init "D" with state := TaskState.CANCELLED }

/-- The handle `"A"` with the terminal dependent `depCancelled`. -/
def asynWithTerminalDep : Asyn := { baseAsyn with dependents := [depCancelled] }

/-- The handle `"A"` with one fresh (PENDING) dependent `"D"`. -/
def asynWithPendingDep : Asyn := { baseAsyn with dependents := [TaskInfo.init "D"] }

/-- Limits with only `max_runtime = 1` set. -/
def limitsRuntime1 : ResourceLimits := { ResourceLimits.init with max_runtime := some 1 }

/-- Stats showing 5 time units of runtime (exceeding `limitsRuntime1`). -/
def statsRuntime5 : ResourceStats := { ResourceStats.init with total_runtime := 5 }

/-- The info of a RUNNING task whose runtime limit is already exceeded. -/
def infoOverLimit : TaskInfo :=
  { TaskInfo.init "A" with
      state := TaskState.RUNNING,
      limits := limitsRuntime1,
      stats := statsRuntime5 }

/-- The handle `"A"` running with its runtime limit already exceeded. -/
def asynOverLimit : Asyn := { baseAsyn with info := infoOverLimit }

/-- The graph in which task 2 depends on task 1 (so adding 1 → 2 would
close a cycle). -/
def g0cyc : DepGraph := DepGraph.add_dependency DepGraph.empty 2 1

/-- `g0cyc` after `add_dependency` makes task 1 depend on task 2,
closing the cycle 1 → 2 → 1. -/
def g1cyc : DepGraph := DepGraph.add_dependency g0cyc 1 2

/-- Limits with every ceiling explicitly set to 0. -/
def allZeroLimits : ResourceLimits :=
  { max_memory := some 0, max_runtime := some 0, max_io_ops := some 0,
    max_network_calls := some 0, max_children := some 0 }

/-- Stats with every usage counter at 99. -/
def bigStats : ResourceStats :=
  { peak_memory := 99, total_runtime := 99, io_operations := 99,
    network_calls := 99, child_tasks := 99 }

/-- C1: `run` transitions PENDING → RUNNING and records `start_time`, and
on return the state is COMPLETED with the result returned — but on a
non-cancellation exception the `finally` block (and the cleanup it runs
with no exception) overwrites the state to COMPLETED, so the final state
is not FAILED even though the exception is stored and re-raised; on
cancellation the final state is likewise COMPLETED, not CANCELLED.  This
theorem evaluates `run` at the failing inputs. -/
theorem run_failure_leaves_state_completed :
    (Asyn.run baseAsyn (.raised "boom") 1 2 3 10).1.info.state = TaskState.COMPLETED ∧
    (Asyn.run baseAsyn (.raised "boom") 1 2 3 10).1.info.state ≠ TaskState.FAILED ∧
    (Asyn.run baseAsyn (.raised "boom") 1 2 3 10).1.info.exception = some "boom" ∧
    (Asyn.run baseAsyn (.raised "boom") 1 2 3 10).2.2 = RunResult.raised "boom" ∧
    (Asyn.run baseAsyn (.raised "boom") 1 2 3 10).1.info.start_time = some 1 ∧
    (Asyn.run baseAsyn .cancelled 1 2 3 10).1.info.state = TaskState.COMPLETED ∧
    (Asyn.run baseAsyn (.ret 42) 1 2 3 10).1.info.state = TaskState.COMPLETED ∧
    (Asyn.run baseAsyn (.ret 42) 1 2 3 10).2.2 = RunResult.value 42 := by
  decide

/-- C2 counterexample: a dependent already in the terminal state
CANCELLED is set to BLOCKED by `_notify_dependents` (which `cancel` runs
on every cancellation), so a terminal handle's `state` field does change
under a later operation, refuting the claim as stated. -/
theorem terminal_dependent_set_blocked_cex :
    depCancelled.state = TaskState.CANCELLED ∧
    depCancelled.state.isTerminal = true ∧
    ((asynWithTerminalDep.notify_dependents none).dependents.map (fun d => d.state) =
      [TaskState.BLOCKED]) ∧
    TaskState.BLOCKED ≠ TaskState.CANCELLED := by
  decide

/-- C3 counterexample: on a handle with one registered cleanup callback,
an explicit `cancel` followed by scope exit produces the callback trace
`[7, 7]` — the cleanup protocol ran twice, not once, because `cleanup()`
returns a fresh `AsynCleanup` instance (with its own `_cleaned = False`)
on every call. -/
theorem cancel_then_exit_double_cleanup_cex :
    (Asyn.cancel asynWithCb true none 5 10).2 ++
      (Asyn.scope_aexit (Asyn.cancel asynWithCb true none 5 10).1 none 6 10).2 =
      [{ id := 7, mode := CallMode.sync }, { id := 7, mode := CallMode.sync }] ∧
    ([{ id := 7, mode := CallMode.sync }, { id := 7, mode := CallMode.sync }] :
      List CallEvent).length ≠ 1 := by
  decide

/-- C3 amended: the cleanup protocol is single-shot only per
`AsynCleanup` instance — a second `__aexit__` on the same instance is a
no-op — but each call to `cleanup()` creates a fresh instance, so an
explicit `cancel` followed by scope exit runs the full protocol (and the
registered callbacks) twice over the handle's lifetime. -/
theorem cleanup_once_per_instance_only :
    (∀ (h : Asyn) (exc : Option ExitExc) (now rss : Nat),
        (AsynCleanup.aexit false h exc now rss).1 = true) ∧
    (∀ (h : Asyn) (exc : Option ExitExc) (now rss : Nat),
        AsynCleanup.aexit true h exc now rss = (true, h, [])) ∧
    ((Asyn.cancel asynWithCb true none 5 10).2.length +
      (Asyn.scope_aexit (Asyn.cancel asynWithCb true none 5 10).1 none 6 10).2.length = 2) := by
  refine ⟨?_, ?_, by decide⟩
  · intro h exc now rss
    simp [AsynCleanup.aexit]
  · intro h exc now rss
    simp [AsynCleanup.aexit]

/-- C4 counterexample: in `g0cyc` task 2 depends on task 1; adding task 2
as a dependency of task 1 would (and does) close the cycle `1 → 2 → 1`,
yet `add_dependency` inserts the edge anyway: `dependencies 1` changes
from `∅` to `{2}`, `dependents 2` gains `1`, and afterwards
`check_deadlock` finds the cycle `[1, 2]` that was absent before.  The
graph is mutated, refuting the claim as stated. -/
theorem add_dependency_cycle_mutates_cex :
    g0cyc.dependencies 1 = [] ∧
    g1cyc.dependencies 1 = [2] ∧
    g1cyc.dependents 2 = [1] ∧
    DepGraph.check_deadlock g0cyc 1 5 = none ∧
    DepGraph.check_deadlock g1cyc 1 5 = some [1, 2] := by
  decide

/-- C4 amended: `add_dependency` performs no cycle check at all — it
unconditionally inserts the edge on both sides of the relation, even when
the edge closes a cycle; cycle detection exists only as the separate pure
query `check_deadlock`, which reports the cycle (here `[1, 2]`) and, being
a pure function of the graph, mutates nothing. -/
theorem add_dependency_unconditional :
    (∀ (g : DepGraph) (self task : Nat),
        (g.add_dependency self task).dependencies self =
          (g.dependencies self).insert task ∧
        (g.add_dependency self task).dependents task =
          (g.dependents task).insert self) ∧
    DepGraph.check_deadlock g1cyc 1 5 = some [1, 2] := by
  refine ⟨?_, by decide⟩
  intro g self task
  constructor
  · simp [DepGraph.add_dependency]
  · simp [DepGraph.add_dependency]

/-- C2 amended: the `state` field is not monotone through terminal
states.  `_notify_dependents` sets every dependent to BLOCKED regardless
of its prior (possibly terminal) state; `_update_final_state` classifies
the exit condition regardless of the prior state, so cleanup invoked with
no exception sets COMPLETED even on a CANCELLED or FAILED handle; and
`end_time` is (re)written by cleanup's `_cleanup_resources` on every
cleanup pass rather than being frozen at the terminal transition. -/
theorem terminal_state_not_monotone :
    (∀ (h : Asyn) (r : Option String),
        (h.notify_dependents r).dependents.map (fun d => d.state) =
          h.dependents.map (fun _ => TaskState.BLOCKED)) ∧
    (∀ i : TaskInfo, (update_final_state none i).state = TaskState.COMPLETED) ∧
    (∀ (h : Asyn) (exc : Option ExitExc) (now rss : Nat),
        (AsynCleanup.aexit false h exc now rss).2.1.info.end_time = some now) := by
  refine ⟨?_, ?_, ?_⟩
  · intro h r
    simp [Asyn.notify_dependents, List.map_map, Function.comp_def, List.map_const]
  · intro i
    simp [update_final_state]
  · intro h exc now rss
    cases exc with
    | none => simp [AsynCleanup.aexit, update_final_state, TaskInfo.update_stats]
    | some e =>
      cases e <;> simp [AsynCleanup.aexit, update_final_state, TaskInfo.update_stats]

/-- The dependency/dependents relation is symmetric:
`B ∈ A.dependents ⇔ A ∈ B.dependencies`. -/
def DepGraph.Symmetric (g : DepGraph) : Prop :=
  ∀ a b : Nat, b ∈ g.dependents a ↔ a ∈ g.dependencies b

/-- C5: on a graph whose sets are duplicate-free and symmetric,
`add_dependency` and `remove_dependency` each maintain both sides of the
edge, preserving the symmetry `B ∈ A.dependents ⇔ A ∈ B.dependencies`
(and the set discipline). -/
theorem dependency_symmetry_preserved (g : DepGraph) (hsets : g.Sets)
    (hg : g.Symmetric) (self task : Nat) :
    (g.add_dependency self task).Symmetric ∧ (g.add_dependency self task).Sets ∧
    (g.remove_dependency self task).Symmetric ∧ (g.remove_dependency self task).Sets := by
  refine ⟨?_, ⟨?_, ?_⟩, ?_, ⟨?_, ?_⟩⟩
  · intro a b
    simp only [DepGraph.add_dependency, Function.update_apply]
    by_cases ha : a = task <;> by_cases hb : b = self <;>
      simp [ha, hb, List.mem_insert_iff, hg a b, hg task b, hg a self]
  · intro t
    simp only [DepGraph.add_dependency, Function.update_apply]
    by_cases ht : t = self <;> simp [ht, List.Nodup.insert (hsets.1 self), hsets.1 t]
  · intro t
    simp only [DepGraph.add_dependency, Function.update_apply]
    by_cases ht : t = task <;> simp [ht, List.Nodup.insert (hsets.2 task), hsets.2 t]
  · intro a b
    simp only [DepGraph.remove_dependency, Function.update_apply]
    by_cases ha : a = task <;> by_cases hb : b = self <;>
      simp [ha, hb, (hsets.2 task).mem_erase_iff, (hsets.1 self).mem_erase_iff,
            hg a b, hg task b, hg a self]
  · intro t
    simp only [DepGraph.remove_dependency, Function.update_apply]
    by_cases ht : t = self <;> simp [ht, List.Nodup.erase task (hsets.1 self), hsets.1 t]
  · intro t
    simp only [DepGraph.remove_dependency, Function.update_apply]
    by_cases ht : t = task <;> simp [ht, List.Nodup.erase self (hsets.2 task), hsets.2 t]

/-- C5 witness: the empty graph is duplicate-free and symmetric, so the
theorem applies to it at the concrete edge 1 → 2. -/
theorem dependency_symmetry_preserved_witness :
    (DepGraph.empty.add_dependency 1 2).Symmetric ∧
    (DepGraph.empty.add_dependency 1 2).Sets ∧
    (DepGraph.empty.remove_dependency 1 2).Symmetric ∧
    (DepGraph.empty.remove_dependency 1 2).Sets :=
  dependency_symmetry_preserved DepGraph.empty
    ⟨fun _ => List.nodup_nil, fun _ => List.nodup_nil⟩
    (fun a b => by simp [DepGraph.empty]) 1 2

/-- C6: a monitor sweep never evaluates the resource limits and never
cancels the handle — it changes neither `state` nor
`debug_info['cancel_reason']` nor the limits/stats it would need to
compare.  At the failing input (a RUNNING handle whose runtime limit 1 is
exceeded by a runtime of 5), the sweep leaves the handle RUNNING with no
cancel reason, even though `check_resource_limits` — which no caller in
the module invokes — would report `"Runtime limit exceeded: 5 > 1"` (a
message that moreover is not of the form `"Resource exceeded: <which>"`). -/
theorem monitor_never_enforces_limits :
    (∀ (h : Asyn) (now rss : Nat),
        (h.monitor_sweep now rss).info.state = h.info.state ∧
        (h.monitor_sweep now rss).info.cancel_reason = h.info.cancel_reason ∧
        (h.monitor_sweep now rss).info.limits = h.info.limits ∧
        (h.monitor_sweep now rss).info.stats = h.info.stats) ∧
    check_resource_limits infoOverLimit.limits infoOverLimit.stats 0 =
      some "Runtime limit exceeded: 5 > 1" ∧
    (asynOverLimit.monitor_sweep 100 10).info.state = TaskState.RUNNING ∧
    (asynOverLimit.monitor_sweep 100 10).info.cancel_reason = none := by
  refine ⟨?_, by decide, by decide, by decide⟩
  intro h now rss
  by_cases hs : h.info.state = TaskState.RUNNING <;>
    simp [Asyn.monitor_sweep, hs]

/-- C7 counterexample: notifying the single pending dependent of handle
`"A"` stores `blocked_reason = "Dependency cancelled: A (None)"`, not a
string of the claimed form `"dependency cancelled: A"`. -/
theorem blocked_reason_format_cex :
    ((asynWithPendingDep.notify_dependents none).dependents.map
        (fun d => d.blocked_reason) = [some "Dependency cancelled: A (None)"]) ∧
    ((asynWithPendingDep.notify_dependents none).dependents.map
        (fun d => d.blocked_reason) ≠ [some "dependency cancelled: A"]) := by
  decide

/-- C7 amended: when a handle is cancelled, every dependent is set to
state BLOCKED with `debug_info['blocked_reason'] =
"Dependency cancelled: <name> (<reason>)"` (the cancelling task's name
and the cancel reason, rendered `"None"` when absent); the notification
reaches each dependent and never cancels it — its runtime task is left
untouched and its state becomes BLOCKED, not CANCELLED. -/
theorem notify_dependents_blocks_all :
    ∀ (h : Asyn) (reason : Option String),
      let n := h.name
      let r := pyStrOpt reason
      ((h.notify_dependents reason).dependents.map
          (fun d => (d.state, d.blocked_reason)) =
        h.dependents.map
          (fun _ => (TaskState.BLOCKED, some s!"Dependency cancelled: {n} ({r})"))) ∧
      ((h.notify_dependents reason).dependents.map (fun d => d.task) =
        h.dependents.map (fun d => d.task)) := by
  intro h reason
  refine ⟨?_, ?_⟩ <;>
    simp [Asyn.notify_dependents, List.map_map, Function.comp_def]

/-- C8: cleanup callbacks run in exactly registration order — the
observable trace is the registration list, each synchronous callback
invoked directly and each asynchronous one awaited — and a callback that
raises is logged (`"Error in cleanup callback: <e>"`) without preventing
any of the remaining callbacks from running. -/
theorem cleanup_callbacks_order_and_errors (cbs : List Callback) :
    (run_cleanup_callbacks cbs).1 =
      cbs.map (fun c =>
        { id := c.id, mode := if c.isAsync then CallMode.awaited else CallMode.sync }) ∧
    (run_cleanup_callbacks cbs).2 =
      cbs.filterMap (fun c => c.raises.map (fun e => s!"Error in cleanup callback: {e}")) := by
  induction cbs with
  | nil => simp [run_cleanup_callbacks]
  | cons c rest ih =>
    refine ⟨?_, ?_⟩ <;>
      cases hr : c.raises <;>
        simp [run_cleanup_callbacks, Callback.invoke, hr, ih.1, ih.2]

/-- C9: a resource ceiling explicitly set to 0 behaves exactly as no
ceiling at all — for each of the five limits, `check_resource_limits`
with that limit set to `some 0` returns the same result as with the limit
unset, for every stats and children count, because each limit is tested
for truthiness (`0` is falsy in Python) before being compared; in
particular, with every ceiling set to 0 and every usage counter at 99
(including 99 children), no violation is reported. -/
theorem zero_limit_is_no_limit (l : ResourceLimits) (s : ResourceStats) (n : Nat) :
    check_resource_limits { l with max_memory := some 0 } s n =
      check_resource_limits { l with max_memory := none } s n ∧
    check_resource_limits { l with max_runtime := some 0 } s n =
      check_resource_limits { l with max_runtime := none } s n ∧
    check_resource_limits { l with max_io_ops := some 0 } s n =
      check_resource_limits { l with max_io_ops := none } s n ∧
    check_resource_limits { l with max_network_calls := some 0 } s n =
      check_resource_limits { l with max_network_calls := none } s n ∧
    check_resource_limits { l with max_children := some 0 } s n =
      check_resource_limits { l with max_children := none } s n ∧
    check_resource_limits allZeroLimits bigStats 99 = none :=
  ⟨rfl, rfl, rfl, rfl, rfl, by decide⟩

/-- C9 witness: the theorem at a concrete limit record, stats record and
children count. -/
theorem zero_limit_is_no_limit_witness :
    check_resource_limits { ResourceLimits.init with max_children := some 0 } bigStats 99 =
      check_resource_limits { ResourceLimits.init with max_children := none } bigStats 99 :=
  (zero_limit_is_no_limit ResourceLimits.init bigStats 99).2.2.2.2.1

/-- C10: on a PENDING handle with no underlying runtime task and no
dependents, `cancel()` leaves the final state COMPLETED (not CANCELLED)
without recording any exception: `_cancel_self` is a no-op without a
runtime task, and the cleanup run by `cancel` exits with no exception, so
`_update_final_state` classifies the exit as COMPLETED. -/
theorem cancel_pending_without_task_completes (h : Asyn) (now rss : Nat)
    (hstate : h.info.state = TaskState.PENDING)
    (htask : h.info.task = none)
    (hdeps : h.dependents = []) :
    (Asyn.cancel h true none now rss).1.info.state = TaskState.COMPLETED ∧
    (Asyn.cancel h true none now rss).1.info.state ≠ TaskState.CANCELLED ∧
    (Asyn.cancel h true none now rss).1.info.exception = h.info.exception ∧
    (Asyn.cancel h true none now rss).1.info.cancel_reason = h.info.cancel_reason := by
  simp [Asyn.cancel, Asyn.cancel_children, Asyn.notify_dependents, AsynCleanup.aexit,
        TaskInfo.cancel_self, htask, TaskInfo.update_stats, update_final_state]

/-- C10 witness: the theorem at the concrete fresh handle `"A"`. -/
theorem cancel_pending_without_task_completes_witness :
    (Asyn.cancel baseAsyn true none 5 10).1.info.state = TaskState.COMPLETED ∧
    (Asyn.cancel baseAsyn true none 5 10).1.info.state ≠ TaskState.CANCELLED ∧
    (Asyn.cancel baseAsyn true none 5 10).1.info.exception = baseAsyn.info.exception ∧
    (Asyn.cancel baseAsyn true none 5 10).1.info.cancel_reason = baseAsyn.info.cancel_reason :=
  cancel_pending_without_task_completes baseAsyn 5 10 rfl rfl rfl

/-- C8 witness: the theorem at a concrete registration list — a sync
callback, an async callback, and a raising sync callback. -/
theorem cleanup_callbacks_order_and_errors_witness :
    (run_cleanup_callbacks
        [{ id := 1, isAsync := false, raises := none },
         { id := 2, isAsync := true, raises := none },
         { id := 3, isAsync := false, raises := some "boom" }]).1 =
      [{ id := 1, mode := CallMode.sync }, { id := 2, mode := CallMode.awaited },
       { id := 3, mode := CallMode.sync }] ∧
    (run_cleanup_callbacks
        [{ id := 1, isAsync := false, raises := none },
         { id := 2, isAsync := true, raises := none },
         { id := 3, isAsync := false, raises := some "boom" }]).2 =
      ["Error in cleanup callback: boom"] := by
  have h := cleanup_callbacks_order_and_errors
    [{ id := 1, isAsync := false, raises := none },
     { id := 2, isAsync := true, raises := none },
     { id := 3, isAsync := false, raises := some "boom" }]
  exact ⟨h.1.trans (by decide), h.2.trans (by decide)⟩
